import Mathlib

/-!
Verification development for two fragments of the IREE compiler/runtime:

* `iree/compiler/Dialect/Modules/Check/Conversion/ConversionPatterns.cpp` —
  the check-dialect conversion-pattern registrar (`populateCheckToVMPatterns`,
  `populateCheckToHALPatterns`);
* `iree/hal/dylib/dylib_device.cc` — the dynamic-library HAL device
  (`DyLibDevice` constructor and `DyLibDevice::CreateExecutableCache`).

The C++ is shallowly embedded: pattern sets become lists, the pattern
templates become constructors of an inductive pattern type, `unique_ptr`
handles become `Option`, and object identity for `make_ref` allocations is
tracked by an explicit allocator counter threaded through calls.
-/

/-! ## Check dialect: data model -/

/-- The five check-dialect assertion op kinds (`CheckOps.h`). -/
inductive CheckOpKind where
  | expect_true
  | expect_false
  | expect_all_true
  | expect_eq
  | expect_almost_eq
deriving DecidableEq

/-- Operand types relevant to the check-dialect lowerings: tensors, HAL
buffer views, and the scalar types the assertion ops accept. -/
inductive Ty where
  | tensor
  | bufferView
  | i1
  | i32
  | f32
deriving DecidableEq

/-- A type converter maps source operand types to destination operand types.
It is shared by reference across all patterns of one population call. -/
abbrev TypeConverter := Ty → Ty

/-- An opaque `MLIRContext` handle, passed through to every pattern. -/
structure MLIRContext where
  id : Nat
deriving DecidableEq

/-- A declaration of a function imported from an external VM module. -/
structure ImportDecl where
  name : String
deriving DecidableEq

/-- The import symbol table: a mapping from string names to imported-function
declarations in the destination module. -/
abbrev SymbolTable := List (String × ImportDecl)

/-- Symbol-table lookup by name. -/
def SymbolTable.find (t : SymbolTable) (n : String) : Option ImportDecl :=
  List.lookup n t

/-- A conversion pattern as registered by the two populators: either a
VM-import lowering (source op kind, import name, cached import handle) or a
HAL lowering (source op kind mapped to destination op kind). Each pattern
also records the context and the type converter handed to its constructor. -/
inductive ConversionPattern where
  | vmImport (context : MLIRContext) (srcOp : CheckOpKind) (importName : String)
      (importOp : Option ImportDecl) (typeConverter : TypeConverter)
  | halConversion (context : MLIRContext) (srcOp : CheckOpKind)
      (dstOp : CheckOpKind) (typeConverter : TypeConverter)

/-- Source op kind a pattern matches. -/
def ConversionPattern.srcKind : ConversionPattern → CheckOpKind
  | .vmImport _ s _ _ _ => s
  | .halConversion _ s _ _ => s

/-- The import name recorded by a VM-import pattern (`none` for HAL patterns). -/
def ConversionPattern.vmImportName : ConversionPattern → Option String
  | .vmImport _ _ n _ _ => some n
  | .halConversion _ _ _ _ => none

/-- The cached import handle of a VM-import pattern (`none` for HAL patterns,
and `none` when construction-time lookup found nothing). -/
def ConversionPattern.cachedImport : ConversionPattern → Option ImportDecl
  | .vmImport _ _ _ i _ => i
  | .halConversion _ _ _ _ => none

/-- Destination op kind of a HAL pattern (`none` for VM-import patterns). -/
def ConversionPattern.halDstKind : ConversionPattern → Option CheckOpKind
  | .vmImport _ _ _ _ _ => none
  | .halConversion _ _ d _ => some d

/-- Modelled from the spec: the `VMImportOpConversion<T>` pattern template
(declared in `iree/compiler/Dialect/VM/Conversion/ImportUtils.h`, outside this
slice) is constructed from (context, import symbol table, type converter, and
an import name); it looks the name up in the import symbol table at construction
time and caches the possibly-absent handle. Construction is total. -/
def VMImportOpConversion (srcOp : CheckOpKind) (context : MLIRContext)
    (importSymbols : SymbolTable) (typeConverter : TypeConverter)
    (importName : String) : ConversionPattern :=
  .vmImport context srcOp importName (importSymbols.find importName) typeConverter

/-- Modelled from the spec: the `HALOpConversion<SRC, DST>` pattern template
(declared in `iree/compiler/Dialect/HAL/Conversion/ConversionTarget.h`,
outside this slice) is constructed from (context, type converter) and maps
SRC ops to DST ops. Construction is total. -/
def HALOpConversion (srcOp : CheckOpKind) (dstOp : CheckOpKind)
    (context : MLIRContext) (typeConverter : TypeConverter) : ConversionPattern :=
  .halConversion context srcOp dstOp typeConverter

/-- The pattern set: an append-only ordered container of patterns consumed by
the rewrite engine. -/
abbrev OwningRewritePatternList := List ConversionPattern

/-- `OwningRewritePatternList::insert` appends one pattern to the set. -/
def OwningRewritePatternList.append1 (patterns : OwningRewritePatternList)
    (p : ConversionPattern) : OwningRewritePatternList :=
  patterns ++ [p]

/-! ## Check dialect: the two populators (ConversionPatterns.cpp) -/

/-- `populateCheckToVMPatterns`: five `insert` calls, one per assertion kind,
each parameterised by the source op tag and a literal import name, in the
source order. -/
def populateCheckToVMPatterns (context : MLIRContext) (importSymbols : SymbolTable)
    (patterns : OwningRewritePatternList) (typeConverter : TypeConverter) :
    OwningRewritePatternList :=
  let patterns := patterns.append1
    (VMImportOpConversion .expect_true context importSymbols typeConverter
      ("check.expect_true"))
  let patterns := patterns.append1
    (VMImportOpConversion .expect_false context importSymbols typeConverter
      ("check.expect_false"))
  let patterns := patterns.append1
    (VMImportOpConversion .expect_all_true context importSymbols typeConverter
      ("check.expect_all_true"))
  let patterns := patterns.append1
    (VMImportOpConversion .expect_eq context importSymbols typeConverter
      ("check.expect_eq"))
  let patterns := patterns.append1
    (VMImportOpConversion .expect_almost_eq context importSymbols typeConverter
      ("check.expect_almost_eq"))
  patterns

/-- `populateCheckToHALPatterns`: one `insert` call with three pattern
template instantiations, each mapping an op to itself, in template-argument
order. -/
def populateCheckToHALPatterns (context : MLIRContext)
    (patterns : OwningRewritePatternList) (typeConverter : TypeConverter) :
    OwningRewritePatternList :=
  ((patterns.append1
      (HALOpConversion .expect_all_true .expect_all_true context typeConverter)).append1
      (HALOpConversion .expect_eq .expect_eq context typeConverter)).append1
      (HALOpConversion .expect_almost_eq .expect_almost_eq context typeConverter)

/-! ## Check dialect: rewrite-time behaviour of the two pattern templates -/

/-- A check-dialect assertion op in the IR: its kind and its operand types. -/
structure CheckOp where
  kind : CheckOpKind
  operands : List Ty
deriving DecidableEq

/-- A call to an imported VM function produced by a fired VM-import pattern. -/
structure VMCallOp where
  callee : String
  operands : List Ty
deriving DecidableEq

/-- Modelled from the spec: when a HAL pattern fires it replaces the op with
the destination-kind op over the same operands with converted types; operand
arity is preserved. (`HALOpConversion::matchAndRewrite` is outside this
slice.) -/
def halRewrite (typeConverter : TypeConverter) (dstOp : CheckOpKind)
    (op : CheckOp) : CheckOp :=
  { kind := dstOp, operands := op.operands.map typeConverter }

/-- Modelled from the spec: when a VM-import pattern fires with an empty
cached import handle the rewrite fails; otherwise it produces a call to the
function imported above, with converted operands. (`VMImportOpConversion` rewrite
is outside this slice; the spec defers lookup failure to rewrite time.) -/
def vmImportRewrite (p : ConversionPattern) (op : CheckOp) : Option VMCallOp :=
  match p with
  | .vmImport _ _ _ importOp typeConverter =>
    match importOp with
    | none => none
    | some imp => some { callee := imp.name, operands := op.operands.map typeConverter }
  | .halConversion _ _ _ _ => none

/-! ## Dynamic-library device: data model (dylib_device.cc) -/

/-- An opaque descriptor identifying a device instance (name, capability
bits); owned by the device. -/
structure DeviceInfo where
  name : String
  supportedFeatures : Nat
deriving DecidableEq

/-- A strategy object defining how work is queued and executed; exclusively
owned by the device (held through a `unique_ptr`). -/
structure SchedulingModel where
  id : Nat
deriving DecidableEq

/-- Modelled from the spec: the `HostLocalDevice` base class (outside this
slice) takes ownership of the device info and the scheduling model moved into
it; no other base-class state is relevant to the claims here. -/
structure HostLocalDevice where
  device_info : DeviceInfo
  scheduling_model : SchedulingModel
deriving DecidableEq

/-- `DyLibDevice` inherits `HostLocalDevice` and adds no state of its own. -/
structure DyLibDevice where
  toHostLocalDevice : HostLocalDevice
deriving DecidableEq

/-- `DyLibDevice::DyLibDevice`: forwards the moved-in device info and
scheduling model to the host-local base class; stores nothing else. -/
def DyLibDevice.construct (device_info : DeviceInfo)
    (scheduling_model : SchedulingModel) : DyLibDevice :=
  ⟨⟨device_info, scheduling_model⟩⟩

/-- The caller-visible effect of invoking the constructor with
`std::move(device_info)` and `std::move(scheduling_model)`: when both caller
handles hold values, the device is built from them and both handles are left
empty; the construction itself cannot fail. -/
def callDyLibDeviceConstructor (infoHandle : Option DeviceInfo)
    (modelHandle : Option SchedulingModel) :
    Option DyLibDevice × Option DeviceInfo × Option SchedulingModel :=
  match infoHandle, modelHandle with
  | some info, some model => (some (DyLibDevice.construct info model), none, none)
  | i, m => (none, i, m)

/-- A record of one resource release performed during destruction. -/
inductive ReleaseEvent where
  | deviceInfo (info : DeviceInfo)
  | schedulingModel (model : SchedulingModel)
deriving DecidableEq

/-- Modelled from the spec: `~DyLibDevice` is defaulted, so destruction
releases exactly the base-class members — the owned device info and the owned
scheduling model, each once. The returned list is the sequence of releases. -/
def DyLibDevice.destroy (d : DyLibDevice) : List ReleaseEvent :=
  [.deviceInfo d.toHostLocalDevice.device_info,
   .schedulingModel d.toHostLocalDevice.scheduling_model]

/-- A dynamic-library executable cache object. Its identity (the C++ object
address) is modelled by the allocator id it was created with. -/
structure DyLibExecutableCache where
  objectId : Nat
deriving DecidableEq

/-- A shared-reference handle (`ref_ptr<T>`), possibly null. -/
abbrev RefPtr (α : Type) := Option α

/-- Modelled from the spec: `make_ref<DyLibExecutableCache>()` (from
`iree/base/ref_ptr.h`, outside this slice) constructs a fresh object —
modelled by consuming the allocator's next id — and never fails. -/
def make_ref (nextId : Nat) : DyLibExecutableCache × Nat :=
  (⟨nextId⟩, nextId + 1)

/-- `DyLibDevice::CreateExecutableCache`: returns `make_ref` of a freshly
constructed `DyLibExecutableCache`; reads or writes no device state. The
allocator counter is threaded explicitly to expose object identity. -/
def DyLibDevice.CreateExecutableCache (d : DyLibDevice) (nextId : Nat) :
    RefPtr DyLibExecutableCache × DyLibDevice × Nat :=
  let r := make_ref nextId
  (some r.1, d, r.2)

/-! ## Helper definitions for the proofs -/

/-- The five VM-import patterns, in the order the populator inserts them. -/
def vmCheckPatternList (context : MLIRContext) (importSymbols : SymbolTable)
    (typeConverter : TypeConverter) : List ConversionPattern :=
  [VMImportOpConversion .expect_true context importSymbols typeConverter
      ("check.expect_true"),
   VMImportOpConversion .expect_false context importSymbols typeConverter
      ("check.expect_false"),
   VMImportOpConversion .expect_all_true context importSymbols typeConverter
      ("check.expect_all_true"),
   VMImportOpConversion .expect_eq context importSymbols typeConverter
      ("check.expect_eq"),
   VMImportOpConversion .expect_almost_eq context importSymbols typeConverter
      ("check.expect_almost_eq")]

/-- The three HAL patterns, in the order the populator inserts them. -/
def halCheckPatternList (context : MLIRContext) (typeConverter : TypeConverter) :
    List ConversionPattern :=
  [HALOpConversion .expect_all_true .expect_all_true context typeConverter,
   HALOpConversion .expect_eq .expect_eq context typeConverter,
   HALOpConversion .expect_almost_eq .expect_almost_eq context typeConverter]

/-! ## Shared lemmas -/

/-- The VM populator is literally "append these five patterns". -/
theorem populateVM_eq_append (context : MLIRContext) (importSymbols : SymbolTable)
    (patterns : OwningRewritePatternList) (typeConverter : TypeConverter) :
    populateCheckToVMPatterns context importSymbols patterns typeConverter
      = patterns ++ vmCheckPatternList context importSymbols typeConverter := by
  simp [populateCheckToVMPatterns, vmCheckPatternList,
    OwningRewritePatternList.append1]

/-- The HAL populator is literally "append these three patterns". -/
theorem populateHAL_eq_append (context : MLIRContext)
    (patterns : OwningRewritePatternList) (typeConverter : TypeConverter) :
    populateCheckToHALPatterns context patterns typeConverter
      = patterns ++ halCheckPatternList context typeConverter := by
  simp [populateCheckToHALPatterns, halCheckPatternList,
    OwningRewritePatternList.append1]

/-! ## Claim theorems -/

/-- C1: for every pattern set, `populateCheckToVMPatterns` appends exactly
five patterns, one for each of the five check op kinds, and the import name
recorded in each pattern is exactly the literal string from the §4.1 table. -/
theorem populateCheckToVMPatterns_appends_five (context : MLIRContext)
    (importSymbols : SymbolTable) (patterns : OwningRewritePatternList)
    (typeConverter : TypeConverter) :
    ∃ newPats : List ConversionPattern,
      populateCheckToVMPatterns context importSymbols patterns typeConverter
        = patterns ++ newPats ∧
      newPats.length = 5 ∧
      newPats.map (fun p => (p.srcKind, p.vmImportName)) =
        [(.expect_true, some ("check.expect_true")),
         (.expect_false, some ("check.expect_false")),
         (.expect_all_true, some ("check.expect_all_true")),
         (.expect_eq, some ("check.expect_eq")),
         (.expect_almost_eq, some ("check.expect_almost_eq"))] :=
  ⟨vmCheckPatternList context importSymbols typeConverter,
   populateVM_eq_append context importSymbols patterns typeConverter, rfl, rfl⟩

/-- C2: for every pattern set, `populateCheckToHALPatterns` appends exactly
three patterns, for `expect_all_true`, `expect_eq` and `expect_almost_eq`;
none of the appended patterns is for `expect_true` or `expect_false`. -/
theorem populateCheckToHALPatterns_appends_three (context : MLIRContext)
    (patterns : OwningRewritePatternList) (typeConverter : TypeConverter) :
    ∃ newPats : List ConversionPattern,
      populateCheckToHALPatterns context patterns typeConverter
        = patterns ++ newPats ∧
      newPats.length = 3 ∧
      newPats.map ConversionPattern.srcKind
        = [.expect_all_true, .expect_eq, .expect_almost_eq] ∧
      newPats.filter
          (fun p => decide (p.srcKind = .expect_true)
            || decide (p.srcKind = .expect_false)) = [] :=
  ⟨halCheckPatternList context typeConverter,
   populateHAL_eq_append context patterns typeConverter, rfl, rfl, rfl⟩

/-- C3: every pattern appended by `populateCheckToHALPatterns` maps a source
op kind to the same destination op kind, and the HAL rewrite keeps the
operand count, only substituting converted operand types. -/
theorem populateCheckToHALPatterns_maps_op_to_self (context : MLIRContext)
    (patterns : OwningRewritePatternList) (typeConverter : TypeConverter)
    (op : CheckOp) :
    ∃ newPats : List ConversionPattern,
      populateCheckToHALPatterns context patterns typeConverter
        = patterns ++ newPats ∧
      newPats.map (fun p => (p.srcKind, p.halDstKind)) =
        [(.expect_all_true, some .expect_all_true),
         (.expect_eq, some .expect_eq),
         (.expect_almost_eq, some .expect_almost_eq)] ∧
      ∀ dstOp : CheckOpKind,
        (halRewrite typeConverter dstOp op).operands.length
            = op.operands.length ∧
        (halRewrite typeConverter dstOp op).operands
            = op.operands.map typeConverter :=
  ⟨halCheckPatternList context typeConverter,
   populateHAL_eq_append context patterns typeConverter, rfl,
   fun _ => ⟨(List.length_map op.operands typeConverter), rfl⟩⟩

/-- C4: every call to `DyLibDevice::CreateExecutableCache` returns a freshly
constructed cache (the one the allocator mints at that call); two successive
calls on the same device return two distinct cache instances. -/
theorem CreateExecutableCache_distinct (d : DyLibDevice) (nextId : Nat) :
    (d.CreateExecutableCache nextId).1 = some ⟨nextId⟩ ∧
    (((d.CreateExecutableCache nextId).2.1).CreateExecutableCache
        ((d.CreateExecutableCache nextId).2.2)).1 = some ⟨nextId + 1⟩ ∧
    (d.CreateExecutableCache nextId).1 ≠
      (((d.CreateExecutableCache nextId).2.1).CreateExecutableCache
        ((d.CreateExecutableCache nextId).2.2)).1 := by
  refine ⟨rfl, rfl, ?_⟩
  simp [DyLibDevice.CreateExecutableCache, make_ref]

/-- Witness for C4 at a concrete device and allocator state. -/
theorem CreateExecutableCache_distinct_witness :
    ((DyLibDevice.construct ⟨"dylib", 0⟩ ⟨0⟩).CreateExecutableCache 0).1 ≠
      ((((DyLibDevice.construct ⟨"dylib", 0⟩ ⟨0⟩).CreateExecutableCache 0).2.1).CreateExecutableCache
        (((DyLibDevice.construct ⟨"dylib", 0⟩ ⟨0⟩).CreateExecutableCache 0).2.2)).1 :=
  (CreateExecutableCache_distinct (DyLibDevice.construct ⟨"dylib", 0⟩ ⟨0⟩) 0).2.2

/-- C5: the `DyLibDevice` constructor forwards the device info and the
scheduling model, unmodified, to the host-local base class and stores no
other state; the moved-from caller handles are left empty; destruction
releases each of the two members exactly once. -/
theorem DyLibDevice_construct_forwards (info : DeviceInfo)
    (model : SchedulingModel) :
    DyLibDevice.construct info model = ⟨⟨info, model⟩⟩ ∧
    callDyLibDeviceConstructor (some info) (some model)
      = (some (DyLibDevice.construct info model), none, none) ∧
    (DyLibDevice.construct info model).destroy
      = [.deviceInfo info, .schedulingModel model] ∧
    ((DyLibDevice.construct info model).destroy).count (.deviceInfo info) = 1 ∧
    ((DyLibDevice.construct info model).destroy).count
      (.schedulingModel model) = 1 := by
  refine ⟨rfl, rfl, rfl, ?_, ?_⟩ <;>
    simp [DyLibDevice.destroy, DyLibDevice.construct, List.count_cons]

/-- C6: neither populator can fail: for every context, symbol table, pattern
set and type converter, population is total and appends its patterns; with a
symbol table in which the import names are absent, the five patterns are
still constructed (with empty cached handles) and failure is deferred to
rewrite time, where each pattern's rewrite returns `none`. -/
theorem populators_total_lookup_deferred (context : MLIRContext)
    (importSymbols : SymbolTable) (patterns : OwningRewritePatternList)
    (typeConverter : TypeConverter) (op : CheckOp) :
    (populateCheckToVMPatterns context importSymbols patterns typeConverter).length
      = patterns.length + 5 ∧
    (populateCheckToHALPatterns context patterns typeConverter).length
      = patterns.length + 3 ∧
    ((populateCheckToVMPatterns context [] patterns typeConverter).drop
        patterns.length).map ConversionPattern.cachedImport
      = [none, none, none, none, none] ∧
    ((populateCheckToVMPatterns context [] patterns typeConverter).drop
        patterns.length).map (fun p => vmImportRewrite p op)
      = [none, none, none, none, none] := by
  refine ⟨?_, ?_, ?_, ?_⟩
  · rw [populateVM_eq_append]; simp [vmCheckPatternList]
  · rw [populateHAL_eq_append]; simp [halCheckPatternList]
  · rw [populateVM_eq_append, List.drop_left]; rfl
  · rw [populateVM_eq_append, List.drop_left]; rfl

/-- C7: `DyLibDevice` construction cannot fail for any device info and
scheduling model, and `CreateExecutableCache` cannot fail: it always returns
a non-null handle. -/
theorem DyLibDevice_infallible (info : DeviceInfo) (model : SchedulingModel)
    (d : DyLibDevice) (nextId : Nat) :
    (callDyLibDeviceConstructor (some info) (some model)).1
      = some (DyLibDevice.construct info model) ∧
    (d.CreateExecutableCache nextId).1.isSome = true :=
  ⟨rfl, rfl⟩

/-- C8: both populators are append-only: the pre-existing patterns survive as
an unchanged prefix, and a second call to the VM populator deduplicates
nothing, growing the set by five more patterns. -/
theorem populators_append_only (context : MLIRContext)
    (importSymbols : SymbolTable) (patterns : OwningRewritePatternList)
    (typeConverter : TypeConverter) :
    (populateCheckToVMPatterns context importSymbols patterns typeConverter).take
        patterns.length = patterns ∧
    (populateCheckToHALPatterns context patterns typeConverter).take
        patterns.length = patterns ∧
    (populateCheckToVMPatterns context importSymbols
        (populateCheckToVMPatterns context importSymbols patterns typeConverter)
        typeConverter).length = patterns.length + 10 ∧
    (populateCheckToVMPatterns context importSymbols
        (populateCheckToVMPatterns context importSymbols patterns typeConverter)
        typeConverter).take patterns.length = patterns := by
  refine ⟨?_, ?_, ?_, ?_⟩
  · rw [populateVM_eq_append]; exact List.take_left patterns _
  · rw [populateHAL_eq_append]; exact List.take_left patterns _
  · rw [populateVM_eq_append, populateVM_eq_append]; simp [vmCheckPatternList]
  · rw [populateVM_eq_append, populateVM_eq_append, List.append_assoc]
    exact List.take_left patterns _

/-- C9: `populateCheckToVMPatterns` inserts its five patterns in exactly the
order expect_true, expect_false, expect_all_true, expect_eq,
expect_almost_eq, so that is the insertion order the rewrite engine sees. -/
theorem populateCheckToVMPatterns_insertion_order (context : MLIRContext)
    (importSymbols : SymbolTable) (patterns : OwningRewritePatternList)
    (typeConverter : TypeConverter) :
    ((populateCheckToVMPatterns context importSymbols patterns
        typeConverter).drop patterns.length).map ConversionPattern.srcKind
      = [.expect_true, .expect_false, .expect_all_true, .expect_eq,
         .expect_almost_eq] := by
  rw [populateVM_eq_append, List.drop_left]; rfl

/-- C10: `DyLibDevice::CreateExecutableCache` leaves the device unchanged:
the device returned by the call, its device info and its scheduling model
all equal their values before the call. -/
theorem CreateExecutableCache_frame (d : DyLibDevice) (nextId : Nat) :
    (d.CreateExecutableCache nextId).2.1 = d ∧
    (d.CreateExecutableCache nextId).2.1.toHostLocalDevice.device_info
      = d.toHostLocalDevice.device_info ∧
    (d.CreateExecutableCache nextId).2.1.toHostLocalDevice.scheduling_model
      = d.toHostLocalDevice.scheduling_model :=
  ⟨rfl, rfl, rfl⟩
